import Mathlib

/-!
Shallow embedding of the retrieval-augmented query pipeline of the
LLM-Powered-Booking-Analytics repository, together with proofs checking the
natural-language specification against the code.

Modules embedded:
* `src/rag/llm_interface.py`  — the generation client (`LLMInterface`);
* `src/rag/vector_store.py`   — the semantic indexer / retriever (`VectorStore`);
* `src/api/main.py`           — the query orchestrator (lazy singletons,
  `ask_question`, `log_query`, `health_check`).

External collaborators (the Mistral HTTP endpoint, the sentence-transformer
embedding model and ChromaDB's nearest-neighbour search) are modelled as
oracle inputs: each network or engine call takes its outcome as an explicit
argument, and the embedding mirrors exactly how the Python code reacts to
that outcome.
-/

set_option autoImplicit false
set_option maxRecDepth 10000

namespace BookingRag

/-! ## Generation client (`src/rag/llm_interface.py`) -/

/-- State of an `LLMInterface` instance: the constructor stores the model
name and the `MISTRAL_API_KEY` environment value, and starts with
`is_loaded = False`. -/
structure LLMClient where
  model_name : String
  api_key : String
  is_loaded : Bool
  deriving Repr, DecidableEq

/-- Outcome of one `requests.post` probe call as seen by `is_healthy`:
either the request raised an exception, or it returned a response with the
given status code. -/
inductive ProbeResult where
  | exn (msg : String)
  | resp (status : Nat)
  deriving Repr, DecidableEq

/-- Embeds `LLMInterface.is_healthy`: returns `False` when the API key is
empty, otherwise posts a tiny probe request and returns whether the status
code is 200; any exception is caught and collapsed to `False`.  The function
also returns the client state, mirroring that the Python method performs no
assignment to `self`. -/
def is_healthy (c : LLMClient) (probe : ProbeResult) : Bool × LLMClient :=
  if c.api_key = "" then
    (false, c)
  else
    match probe with
    | .exn _ => (false, c)
    | .resp status => (status == 200, c)

/-- Embeds `LLMInterface.load_model`: raises `ValueError` when the API key
is empty; otherwise calls `is_healthy()` (whose boolean result the source
discards) and then sets `is_loaded = True`. -/
def load_model (c : LLMClient) (probe : ProbeResult) : Except String LLMClient :=
  if c.api_key = "" then
    .error "API key not provided."
  else
    let h := is_healthy c probe
    .ok { h.2 with is_loaded := true }

/-- Minimal JSON value, enough to express the generation API's response
body and the nested-field access `data["choices"][0]["message"]["content"]`. -/
inductive Json where
  | null
  | str (s : String)
  | num (n : Int)
  | arr (items : List Json)
  | obj (fields : List (String × Json))
  deriving Repr

/-- Result of running a piece of Python code that may raise: either a value,
a `ValueError` (the kind `generate_response` classifies errors into), or an
unclassified exception (`KeyError` / `IndexError` / `TypeError`) that no
handler in `generate_response` catches. -/
inductive PyResult (α : Type) where
  | ok (a : α)
  | valueError (msg : String)
  | keyError (key : String)
  | indexError
  | typeError
  deriving Repr, DecidableEq

/-- Python `j[k]` on a JSON value: field lookup raises `KeyError` when the
key is absent and `TypeError` when the value is not an object. -/
def jGet (j : Json) (k : String) : PyResult Json :=
  match j with
  | .obj fields =>
    match fields.find? (fun p => p.1 == k) with
    | some p => .ok p.2
    | none => .keyError k
  | _ => .typeError

/-- Python `j[i]` on a JSON value: list indexing raises `IndexError` out of
range and `TypeError` when the value is not an array. -/
def jIndex (j : Json) (i : Nat) : PyResult Json :=
  match j with
  | .arr items =>
    match items.get? i with
    | some x => .ok x
    | none => .indexError
  | _ => .typeError

/-- Sequencing of fallible Python expressions: an uncaught exception
propagates. -/
def pyBind {α β : Type} (r : PyResult α) (f : α → PyResult β) : PyResult β :=
  match r with
  | .ok a => f a
  | .valueError m => .valueError m
  | .keyError k => .keyError k
  | .indexError => .indexError
  | .typeError => .typeError

/-- Renders the extracted `content` JSON value as the answer text (the
Python code returns the raw value; on the happy path it is a string). -/
def jAsString (j : Json) : String :=
  match j with
  | .str s => s
  | .num n => toString n
  | _ => ""

/-- Outcome of the `requests.post` call inside `generate_response`: a
transport exception (a `requests.exceptions.RequestException`) or a
response with a status code and a JSON body. -/
inductive HttpResult where
  | exn (msg : String)
  | resp (status : Nat) (body : Json)
  deriving Repr

/-- Nested extraction `data["choices"][0]["message"]["content"]` performed
on a successful response body. -/
def extractContent (body : Json) : PyResult Json :=
  pyBind (jGet body "choices") (fun c =>
    pyBind (jIndex c 0) (fun c0 =>
      pyBind (jGet c0 "message") (fun m =>
        jGet m "content")))

/-- Embeds `LLMInterface.generate_response`.  Guards: `ValueError` when the
client is not loaded or the key is empty.  The `try` block posts the
request; `raise_for_status` turns a 4xx/5xx status into a
`requests.exceptions.RequestException`, and the `except` clause catches
exactly that kind, re-raising it as a classified `ValueError`.  A `KeyError`
(or `IndexError`/`TypeError`) raised while indexing into the JSON body of a
successful response matches no handler and escapes unclassified. -/
def generate_response (c : LLMClient) (query : String) (http : HttpResult) :
    PyResult String :=
  if !c.is_loaded then
    .valueError "API connection not initialized."
  else if c.api_key = "" then
    .valueError "API key not provided."
  else
    match http with
    | .exn m => .valueError ("API request failed: " ++ m)
    | .resp status body =>
      if 400 ≤ status then
        .valueError ("API request failed: status " ++ toString status)
      else
        pyBind (extractContent body) (fun content => .ok (jAsString content))

/-! ## Semantic indexer and retriever (`src/rag/vector_store.py`) -/

/-- One row of the processed CSV as pandas iterates it: an ordered list of
(column name, value) pairs, where `none` stands for a `NaN`/missing cell
(`pd.notna(value)` is false) and a present value is carried as the text
that the f-string renders it to. -/
abbrev Row : Type := List (String × Option String)

/-- Character set of Python's `doc_text.strip(", ")`: a comma or a space. -/
def stripSet (c : Char) : Bool := c == ',' || c == ' '

/-- Python's `s.strip(", ")`: remove every leading and every trailing
character belonging to the set `{\x27,\x27, \x27 \x27}`. -/
def pyStrip (s : String) : String :=
  ⟨((s.data.dropWhile stripSet).reverse.dropWhile stripSet).reverse⟩

/-- Body of the inner loop of `prepare_documents`: the accumulated
`doc_text` after folding `doc_text += f"{col}: {value}, "` over the row,
skipping cells for which `pd.notna` is false. -/
def rowText (row : Row) : String :=
  row.foldl
    (fun acc kv =>
      match kv.2 with
      | some v => acc ++ kv.1 ++ ": " ++ v ++ ", "
      | none => acc)
    ""

/-- The `doc_meta` dictionary built alongside `doc_text`: exactly the
columns whose value is present, in column order. -/
def rowMeta (row : Row) : List (String × String) :=
  row.foldl
    (fun acc kv =>
      match kv.2 with
      | some v => acc ++ [(kv.1, v)]
      | none => acc)
    []

/-- Embeds `VectorStore.prepare_documents`: per row, the stripped document
text and the metadata dictionary. -/
def prepare_documents (data : List Row) : List String × List (List (String × String)) :=
  (data.map (fun row => pyStrip (rowText row)), data.map rowMeta)

/-- Reference rendering of a row's non-missing attributes as the parts
`"name: value"`, in attribute order. -/
def rowParts (row : Row) : List String :=
  (rowMeta row).map (fun kv => kv.1 ++ ": " ++ kv.2)

/-- Modelled from the spec: parts joined by a fixed separator with no
trailing separator (the spec's description of a Document's text). -/
def joinSep (sep : String) (parts : List String) : String :=
  match parts with
  | [] => ""
  | p :: ps => ps.foldl (fun acc x => acc ++ sep ++ x) p

/-- One ChromaDB collection: its name and, for the documents inserted into
it, the parallel lists of texts, metadata maps and document ids. -/
structure ChromaCollection where
  name : String
  docs : List String
  metas : List (List (String × String))
  ids : List String
  deriving Repr, DecidableEq

/-- The ChromaDB client's state: the list of collections the storage path
currently holds (`list_collections`). -/
structure ChromaDB where
  collections : List ChromaCollection
  deriving Repr, DecidableEq

/-- `list_collections` membership test performed by
`create_chroma_collection`. -/
def collectionExists (db : ChromaDB) (name : String) : Bool :=
  db.collections.any (fun col => col.name == name)

/-- `get_collection(name)` on the modelled client. -/
def getCollection (db : ChromaDB) (name : String) : Option ChromaCollection :=
  db.collections.find? (fun col => col.name == name)

/-- Result of one `create_chroma_collection` call: the client state after
the call, the collection attached to or created, and how many
embedding-provider calls (one per document embedded) and `collection.add`
batch calls the build performed. -/
structure BuildOutcome where
  db : ChromaDB
  collection : ChromaCollection
  embedCalls : Nat
  addCalls : Nat
  deriving Repr, DecidableEq

/-- Document ids `"doc_0"`, `"doc_1"`, ... for `n` documents. -/
def documentIds (n : Nat) : List String :=
  (List.range n).map (fun i => "doc_" ++ toString i)

/-- Number of iterations of the batched `for i in range(0, len, 1000)`
insertion loop. -/
def numBatches (n : Nat) : Nat := (n + 999) / 1000

/-- Embeds `VectorStore.create_chroma_collection`.  The call first lists
collections; if one with the requested name exists and `get_collection`
succeeds (`accessOk`), it attaches to it and returns — no documents are
prepared, embedded or inserted.  Otherwise it prepares the documents and
calls `create_collection`, which fails when a collection with that name
already exists (the `except` fallback path after a failed
`get_collection`), and then inserts all documents in batches of 1000, the
embedding function embedding each document as it is added. -/
def create_chroma_collection (db : ChromaDB) (data : List Row)
    (collection_name : String) (accessOk : Bool) : Except String BuildOutcome :=
  if collectionExists db collection_name && accessOk then
    match getCollection db collection_name with
    | some col => .ok ⟨db, col, 0, 0⟩
    | none => .error "unreachable: existence check found the collection"
  else
    let prepared := prepare_documents data
    let documents := prepared.1
    let metadata := prepared.2
    let document_ids := documentIds documents.length
    if collectionExists db collection_name then
      .error ("collection " ++ collection_name ++ " already exists")
    else
      let col : ChromaCollection :=
        ⟨collection_name, documents, metadata, document_ids⟩
      .ok ⟨⟨db.collections ++ [col]⟩, col, documents.length, numBatches documents.length⟩

/-- State of a `VectorStore` instance: the loaded CSV rows and the
`self.collection` field, `None` until `create_chroma_collection` has
succeeded. -/
structure VectorStoreState where
  data : List Row
  collection : Option ChromaCollection
  deriving Repr, DecidableEq

/-- The `VectorStore.__init__` state for an existing CSV: data loaded,
collection not yet initialized. -/
def VectorStore_init (rows : List Row) : VectorStoreState := ⟨rows, none⟩

/-- One formatted retrieval hit as `VectorStore.query` returns it. -/
structure Hit where
  document : String
  metadata : List (String × String)
  score : Int
  deriving Repr, DecidableEq

/-- The ChromaDB engine's answer to one `collection.query` call (the
nearest-neighbour search itself is an external service): parallel lists of
documents, metadata maps and distances for the single query text. -/
structure ChromaQueryResult where
  documents : List String
  metadatas : List (List (String × String))
  distances : List Int
  deriving Repr, DecidableEq

/-- Embeds `VectorStore.query`: raises `ValueError` when `self.collection`
is `None`; otherwise runs the engine query and formats entry `i` of the
parallel result lists into a hit, for `i` in `range(len(documents))`. -/
def VectorStore_query (vs : VectorStoreState) (engine : ChromaQueryResult)
    (query_text : String) (top_k : Nat) : Except String (List Hit) :=
  match vs.collection with
  | none => .error "ChromaDB collection not initialized."
  | some _ =>
    .ok ((List.range (min top_k engine.documents.length)).map (fun i =>
      ⟨engine.documents.getD i "", engine.metadatas.getD i [], engine.distances.getD i 0⟩))

/-! ## Context assembler (`LLMInterface.retrieve_relevant_context`) -/

/-- The fixed whitelist of metadata keys the context assembler emits,
exactly the list literal in `retrieve_relevant_context`. -/
def contextWhitelist : List String :=
  ["adr", "lead_time", "arrival_date", "arrival_date_year",
   "arrival_date_month", "total_revenue", "country", "is_canceled",
   "reservation_status", "hotel", "stays_in_weekend_nights",
   "stays_in_week_nights", "total_nights"]

/-- Embeds the formatting loop of `LLMInterface.retrieve_relevant_context`:
starting from the header, for each hit append `"Record {i+1}:\n"`, then one
`"- {key}: {value}\n"` line per metadata entry whose key is whitelisted,
then a blank line. -/
def format_context (results : List Hit) : String :=
  results.enum.foldl
    (fun context p =>
      let context := context ++ "Record " ++ toString (p.1 + 1) ++ ":\n"
      let context := p.2.metadata.foldl
        (fun ctx kv =>
          if contextWhitelist.contains kv.1 then
            ctx ++ "- " ++ kv.1 ++ ": " ++ kv.2 ++ "\n"
          else
            ctx)
        context
      context ++ "\n")
    "Based on the hotel booking data, here are some relevant records:\n\n"

/-- Embeds `LLMInterface.retrieve_relevant_context` end to end: fails when
the instance holds no vector store, otherwise queries it (top-k defaulting
to 3 at the `answer_with_rag` call site) and formats the hits. -/
def retrieve_relevant_context (store : Option VectorStoreState)
    (engine : ChromaQueryResult) (query : String) (top_k : Nat) :
    Except String String :=
  match store with
  | none => .error "Vector store not initialized."
  | some vs =>
    match VectorStore_query vs engine query top_k with
    | .error e => .error e
    | .ok results => .ok (format_context results)

/-! ## Query orchestrator (`src/api/main.py`) -/

/-- The prompt template of `LLMInterface.answer_with_rag`. -/
def ragPrompt (context query : String) : String :=
  "\nYou are an AI assistant that helps analyze hotel booking data.\n" ++
  "Use the following retrieved records to answer the question accurately.\n" ++
  "If the answer cannot be found in the records, say so clearly.\n" ++
  "Be concise but thorough and provide numerical data when relevant.\n\n" ++
  context ++ "\n\nQuestion: " ++ query ++ "\n\nAnswer:\n"

/-- The dictionary `answer_with_rag` returns. -/
structure RagResponse where
  query : String
  context : String
  answer : String
  deriving Repr, DecidableEq

/-- Embeds `LLMInterface.answer_with_rag`: retrieve context (top-k 3 at the
orchestrator's call site), build the prompt, generate.  A `ValueError` from
retrieval or generation, and an unclassified exception from generation,
both propagate to the caller. -/
def answer_with_rag (llm : LLMClient) (store : Option VectorStoreState)
    (engine : ChromaQueryResult) (http : HttpResult) (query : String)
    (top_k : Nat) : PyResult RagResponse :=
  match retrieve_relevant_context store engine query top_k with
  | .error e => .valueError e
  | .ok context =>
    pyBind (generate_response llm (ragPrompt context query) http)
      (fun answer => .ok ⟨query, context, answer⟩)

/-- One entry of the orchestrator's `query_history` list. -/
structure HistEntry where
  query : String
  answer : String
  timestamp : String
  deriving Repr, DecidableEq

/-- The module-level mutable state of `src/api/main.py`: the three lazy
singletons, the query history, and the ChromaDB storage the vector-store
singleton builds into. -/
structure ApiState where
  analytics : Bool
  vector_store : Option VectorStoreState
  llm_instance : Option LLMClient
  query_history : List HistEntry
  chroma : ChromaDB
  deriving Repr, DecidableEq

/-- The process environment and the outcomes of the external calls a
request may perform: the processed CSV (`none` when the file is missing),
whether `get_collection` succeeds on an existing collection, the
`MISTRAL_API_KEY` and model-name variables, the probe outcome, the engine
answer for a vector query, the generation HTTP outcome, and the timestamp
`datetime.now().isoformat()` returns. -/
structure Env where
  dataFile : Option (List Row)
  chromaAccessOk : Bool
  mistral_api_key : String
  model_name : String
  probe : ProbeResult
  engine : ChromaQueryResult
  http : HttpResult
  timestamp : String

/-- Embeds `get_analytics`: on first access construct `BookingAnalytics`,
whose constructor loads the CSV and raises `FileNotFoundError` when the
file is missing; afterwards return the cached instance. -/
def get_analytics (st : ApiState) (env : Env) : ApiState × Except String Unit :=
  if st.analytics then
    (st, .ok ())
  else
    match env.dataFile with
    | none => (st, .error "Data file not found")
    | some _ => ({ st with analytics := true }, .ok ())

/-- Embeds `get_vector_store`: on first access construct the
`VectorStore` (its constructor raises when the CSV is missing, in which
case the global stays `None`) and then build or attach the
`hotel_bookings` collection; note that the global is assigned before the
collection build, so a failed build leaves a store without a collection
cached.  Afterwards return the cached instance. -/
def get_vector_store (st : ApiState) (env : Env) :
    ApiState × Except String VectorStoreState :=
  match st.vector_store with
  | some vs => (st, .ok vs)
  | none =>
    match env.dataFile with
    | none => (st, .error "Data file not found")
    | some rows =>
      let vs0 := VectorStore_init rows
      let st1 := { st with vector_store := some vs0 }
      match create_chroma_collection st1.chroma rows "hotel_bookings" env.chromaAccessOk with
      | .error e => (st1, .error e)
      | .ok outcome =>
        let vs1 : VectorStoreState := ⟨rows, some outcome.collection⟩
        ({ st1 with vector_store := some vs1, chroma := outcome.db }, .ok vs1)

/-- Embeds `get_llm_interface`: on first access obtain the vector store,
check `MISTRAL_API_KEY`, construct the `LLMInterface` (assigning the
global), then run `load_model`; every exception inside the `try` is
re-raised as `ValueError("LLM initialization failed: ...")`.  Afterwards
return the cached instance. -/
def get_llm_interface (st : ApiState) (env : Env) :
    ApiState × Except String LLMClient :=
  match st.llm_instance with
  | some llm => (st, .ok llm)
  | none =>
    match get_vector_store st env with
    | (st1, .error e) => (st1, .error ("LLM initialization failed: " ++ e))
    | (st1, .ok _) =>
      if env.mistral_api_key = "" then
        (st1, .error "LLM initialization failed: MISTRAL_API_KEY not found in environment variables")
      else
        let llm0 : LLMClient := ⟨env.model_name, env.mistral_api_key, false⟩
        let st2 := { st1 with llm_instance := some llm0 }
        match load_model llm0 env.probe with
        | .error e => (st2, .error ("LLM initialization failed: " ++ e))
        | .ok llm1 => ({ st2 with llm_instance := some llm1 }, .ok llm1)

/-- Embeds `log_query`: append the entry, then keep only the last 100
entries when the list has grown past 100. -/
def log_query (history : List HistEntry) (query answer timestamp : String) :
    List HistEntry :=
  let h := history ++ [⟨query, answer, timestamp⟩]
  if h.length > 100 then h.drop (h.length - 100) else h

/-- Renders the exception a failed stage raised as the string interpolated
into the HTTP 500 detail. -/
def pyErrMsg {α : Type} (r : PyResult α) : String :=
  match r with
  | .ok _ => ""
  | .valueError m => m
  | .keyError k => "KeyError: " ++ k
  | .indexError => "IndexError: list index out of range"
  | .typeError => "TypeError"

/-- Embeds the `/ask` route `ask_question`: obtain the LLM singleton
(lazily constructing the vector store and client), run `answer_with_rag`,
and only on success log the query; any exception is caught and turned into
an HTTP 500 error, leaving the history untouched. -/
def ask_question (st : ApiState) (env : Env) (query : String) :
    ApiState × Except String String :=
  match get_llm_interface st env with
  | (st1, .error e) => (st1, .error ("Error answering question: " ++ e))
  | (st1, .ok llm) =>
    match answer_with_rag llm st1.vector_store env.engine env.http query 3 with
    | .ok r =>
      ({ st1 with query_history := log_query st1.query_history query r.answer env.timestamp },
       .ok r.answer)
    | e => (st1, .error ("Error answering question: " ++ pyErrMsg e))

/-- The component fields of the `/health` report. -/
structure HealthReport where
  status : String
  analytics : String
  vector_store : String
  llm : String
  deriving Repr, DecidableEq

/-- Embeds the `/health` route `health_check`: probe the analytics and
vector-store singletons through their lazy getters (constructing them when
absent, and swallowing their exceptions into an "unhealthy" component
status), then report on the LLM singleton without ever constructing it:
when it is `None` the component reads `not_initialized`, otherwise
`is_healthy` is consulted. -/
def health_check (st : ApiState) (env : Env) : ApiState × HealthReport :=
  let a := get_analytics st env
  let aStat := match a.2 with | .ok _ => "healthy" | .error _ => "unhealthy"
  let v := get_vector_store a.1 env
  let vStat := match v.2 with | .ok _ => "healthy" | .error _ => "unhealthy"
  let st2 := v.1
  let lStat :=
    match st2.llm_instance with
    | some llm => if (is_healthy llm env.probe).1 then "healthy" else "unhealthy"
    | none => "not_initialized"
  let status :=
    if aStat == "unhealthy" || vStat == "unhealthy" || lStat == "unhealthy" then
      "degraded"
    else
      "ok"
  (st2, ⟨status, aStat, vStat, lStat⟩)

/-! ## Derived forms used by the verification -/

/-- Concatenation of a list of strings, the reference shape for the
accumulated `context +=` loops. -/
def strConcat : List String → String
  | [] => ""
  | s :: ss => s ++ strConcat ss

/-- The block the context assembler emits for the hit of rank `i` (zero
based): the record number line, one line per whitelisted metadata entry in
metadata order, and a blank line. -/
def hitBlock (p : Nat × Hit) : String :=
  "Record " ++ toString (p.1 + 1) ++ ":\n" ++
    strConcat ((p.2.metadata.filter fun kv => contextWhitelist.contains kv.1).map
      fun kv => "- " ++ kv.1 ++ ": " ++ kv.2 ++ "\n") ++ "\n"

/-- Folding `log_query` over a whole sequence of (query, answer,
timestamp) entries, starting from the empty history — the effect of that
many successful `ask` calls on the history list. -/
def apply_queries (es : List HistEntry) : List HistEntry :=
  es.foldl (fun h e => log_query h e.query e.answer e.timestamp) []

/-- The suffix of the history a bounded log keeps: everything past the
first `length - 100` entries. -/
def last100 (l : List HistEntry) : List HistEntry := l.drop (l.length - 100)

/-! ## Claim theorems -/

/-- C1 (code evaluated at the failing input): with a non-empty credential
and a probe call failing with a transport exception, `load_model` still
succeeds and marks the client Ready (`is_loaded = true`) — the boolean the
probe returns is discarded — even though `is_healthy` reports that same
probe outcome as unhealthy; with an empty credential it fails as the claim
states. -/
theorem c1_ready_despite_failed_probe :
    load_model ⟨"mistral-medium", "k", false⟩ (.exn "connection refused") =
      .ok ⟨"mistral-medium", "k", true⟩ ∧
    (is_healthy ⟨"mistral-medium", "k", false⟩ (.exn "connection refused")).1 = false ∧
    load_model ⟨"mistral-medium", "", false⟩ (.resp 200) =
      .error "API key not provided." :=
  ⟨rfl, rfl, rfl⟩

/-- C7: `is_healthy` never mutates the client state, and returns a plain
boolean that is `true` exactly when the credential is non-empty and the
probe returned status 200 — a missing credential, a transport exception
and a non-200 status all collapse to `false` without raising. -/
theorem c7_is_healthy_total_and_pure (c : LLMClient) (probe : ProbeResult) :
    (is_healthy c probe).2 = c ∧
    ((is_healthy c probe).1 = true ↔ (c.api_key ≠ "" ∧ probe = .resp 200)) := by
  cases probe with
  | exn m => by_cases h : c.api_key = "" <;> simp [is_healthy, h]
  | resp s => by_cases h : c.api_key = "" <;> simp [is_healthy, h]

/-- C8: invoking the retriever's `query` before a successful build/attach
(the `collection` field still holds `None`, as `VectorStore.__init__`
leaves it) fails with the "not initialized" `ValueError` for every query
text, top-k and engine state. -/
theorem c8_query_before_build_fails (vs : VectorStoreState)
    (engine : ChromaQueryResult) (q : String) (k : Nat)
    (h : vs.collection = none) :
    VectorStore_query vs engine q k =
      .error "ChromaDB collection not initialized." := by
  unfold VectorStore_query
  rw [h]

/-- Witness for C8: the freshly constructed store indeed has no collection,
and its query fails as stated. -/
theorem c8_witness :
    (VectorStore_init []).collection = none ∧
    VectorStore_query (VectorStore_init []) ⟨[], [], []⟩ "average price" 5 =
      .error "ChromaDB collection not initialized." :=
  ⟨rfl, c8_query_before_build_fails (VectorStore_init []) ⟨[], [], []⟩ "average price" 5 rfl⟩

theorem last100_length_le (l : List HistEntry) : (last100 l).length ≤ 100 := by
  unfold last100
  simp only [List.length_drop]
  omega

theorem log_query_eq_last100 (h : List HistEntry) (q a ts : String) :
    log_query h q a ts = last100 (h ++ [HistEntry.mk q a ts]) := by
  by_cases hgt : (h ++ [HistEntry.mk q a ts]).length > 100
  · simp only [log_query, last100, hgt, if_true]
  · simp only [log_query, last100, hgt, if_false]
    simp only [List.length_append, List.length_singleton, gt_iff_lt, Nat.not_lt] at hgt
    have h0 : (h ++ [HistEntry.mk q a ts]).length - 100 = 0 := by
      simp only [List.length_append, List.length_singleton]
      omega
    rw [h0, List.drop_zero]

theorem last100_append (x es : List HistEntry) (hx : x.length ≤ 101) :
    last100 (last100 x ++ es) = last100 (x ++ es) := by
  unfold last100
  rw [← @List.drop_append_of_le_length _ x es _ (Nat.sub_le x.length 100)]
  rw [List.drop_drop]
  congr 1
  simp only [List.length_append, List.length_drop]
  omega

theorem foldl_log_query_eq_last100 (es : List HistEntry) :
    ∀ h : List HistEntry, h.length ≤ 100 →
      es.foldl (fun acc e => log_query acc e.query e.answer e.timestamp) h =
        last100 (h ++ es) := by
  induction es with
  | nil =>
    intro h hle
    have h0 : h.length - 100 = 0 := by omega
    simp [last100, h0]
  | cons e es ih =>
    intro h hle
    have hstep : log_query h e.query e.answer e.timestamp = last100 (h ++ [e]) := by
      have := log_query_eq_last100 h e.query e.answer e.timestamp
      simpa using this
    calc (e :: es).foldl (fun acc x => log_query acc x.query x.answer x.timestamp) h
        = es.foldl (fun acc x => log_query acc x.query x.answer x.timestamp)
            (last100 (h ++ [e])) := by
          simp only [List.foldl_cons, hstep]
      _ = last100 (last100 (h ++ [e]) ++ es) := ih _ (last100_length_le _)
      _ = last100 ((h ++ [e]) ++ es) := by
          refine last100_append (h ++ [e]) es ?_
          simp only [List.length_append, List.length_singleton]
          omega
      _ = last100 (h ++ e :: es) := by
          congr 1
          simp

/-- C4: the query history is FIFO-bounded at 100 entries — `log_query`
keeps the history at 100 or fewer entries, eviction at capacity removes
exactly the single oldest entry while preserving the order of the rest,
and a run of 101 successful `ask` calls from an empty history leaves
exactly the 2nd through 101st entries, in their original order (the first
call's entry is gone). -/
theorem c4_history_fifo_capped :
    (∀ (h : List HistEntry) (q a ts : String), h.length ≤ 100 →
      (log_query h q a ts).length ≤ 100) ∧
    (∀ (h : List HistEntry) (q a ts : String), h.length = 100 →
      log_query h q a ts = h.drop 1 ++ [HistEntry.mk q a ts]) ∧
    (∀ es : List HistEntry, es.length = 101 → apply_queries es = es.drop 1) := by
  refine ⟨?_, ?_, ?_⟩
  · intro h q a ts hle
    rw [log_query_eq_last100]
    exact last100_length_le _
  · intro h q a ts hlen
    rw [log_query_eq_last100]
    unfold last100
    have h1 : (h ++ [HistEntry.mk q a ts]).length - 100 = 1 := by
      simp [hlen]
    rw [h1, List.drop_append_of_le_length (by omega)]
  · intro es hlen
    unfold apply_queries
    rw [foldl_log_query_eq_last100 es [] (by simp)]
    unfold last100
    simp [hlen]

/-- Witness for C4: each conjunct applied at a concrete history. -/
theorem c4_witness :
    ((log_query [] "q" "a" "t").length ≤ 100) ∧
    (log_query (List.replicate 100 (HistEntry.mk "q0" "a0" "t0")) "q" "a" "t" =
      (List.replicate 100 (HistEntry.mk "q0" "a0" "t0")).drop 1 ++
        [HistEntry.mk "q" "a" "t"]) ∧
    (apply_queries (List.replicate 101 (HistEntry.mk "q" "a" "t")) =
      (List.replicate 101 (HistEntry.mk "q" "a" "t")).drop 1) :=
  ⟨c4_history_fifo_capped.1 [] "q" "a" "t" (by simp),
   c4_history_fifo_capped.2.1 (List.replicate 100 (HistEntry.mk "q0" "a0" "t0"))
     "q" "a" "t" (by simp),
   c4_history_fifo_capped.2.2 (List.replicate 101 (HistEntry.mk "q" "a" "t")) (by simp)⟩

theorem foldl_step_append {α : Type} (step : String → α → String) (g : α → String)
    (hstep : ∀ acc x, step acc x = acc ++ g x) (l : List α) :
    ∀ init : String, l.foldl step init = init ++ strConcat (l.map g) := by
  induction l with
  | nil => intro init; simp [strConcat]
  | cons a l ih =>
    intro init
    simp only [List.foldl_cons, List.map_cons, strConcat, hstep, ih,
      String.append_assoc]

theorem strConcat_if_filter {α : Type} (p : α → Bool) (f : α → String) (l : List α) :
    strConcat (l.map fun x => if p x then f x else "") =
      strConcat ((l.filter p).map f) := by
  induction l with
  | nil => rfl
  | cons a l ih =>
    by_cases h : p a <;> simp [strConcat, List.filter_cons, h, ih]

theorem format_context_inner (m : List (String × String)) (init : String) :
    m.foldl
      (fun ctx kv =>
        if contextWhitelist.contains kv.1 then
          ctx ++ "- " ++ kv.1 ++ ": " ++ kv.2 ++ "\n"
        else
          ctx)
      init =
      init ++ strConcat ((m.filter fun kv => contextWhitelist.contains kv.1).map
        fun kv => "- " ++ kv.1 ++ ": " ++ kv.2 ++ "\n") := by
  rw [← strConcat_if_filter]
  refine foldl_step_append _ _ ?_ m init
  intro acc kv
  by_cases h : kv.1 ∈ contextWhitelist <;>
    simp [h, String.append_assoc, String.append_empty]

/-- C6: the assembled context is exactly the header followed by one block
per hit, in the same order as the input hits and numbered 1, 2, ... — and
each block renders only metadata entries whose key belongs to the fixed
whitelist, so no key outside it ever reaches the context. -/
theorem c6_context_blocks_whitelisted_ordered (results : List Hit) :
    format_context results =
      "Based on the hotel booking data, here are some relevant records:\n\n" ++
        strConcat (results.enum.map hitBlock) ∧
    (∀ hit ∈ results,
      ∀ kv ∈ hit.metadata.filter fun kv => contextWhitelist.contains kv.1,
        kv.1 ∈ contextWhitelist) ∧
    results.enum.map (fun p => p.1 + 1) =
      (List.range results.length).map (fun i => i + 1) := by
  refine ⟨?_, ?_, ?_⟩
  · unfold format_context
    refine foldl_step_append _ hitBlock ?_ results.enum _
    intro acc p
    show List.foldl
        (fun ctx kv =>
          if contextWhitelist.contains kv.1 then
            ctx ++ "- " ++ kv.1 ++ ": " ++ kv.2 ++ "\n"
          else
            ctx)
        (acc ++ "Record " ++ toString (p.1 + 1) ++ ":\n") p.2.metadata ++ "\n" =
      acc ++ hitBlock p
    rw [format_context_inner]
    unfold hitBlock
    simp only [String.append_assoc]
  · intro hit _ kv hkv
    have := List.of_mem_filter hkv
    simpa using this
  · rw [show (fun p : Nat × Hit => p.1 + 1) = (fun i => i + 1) ∘ Prod.fst from rfl,
      ← List.map_map, List.enum_map_fst]

theorem rowMeta_foldl (row : Row) :
    ∀ init : List (String × String),
      row.foldl
        (fun acc kv =>
          match kv.2 with
          | some v => acc ++ [(kv.1, v)]
          | none => acc)
        init =
      init ++ row.filterMap (fun kv => kv.2.map (fun v => (kv.1, v))) := by
  induction row with
  | nil => intro init; simp
  | cons kv row ih =>
    intro init
    obtain ⟨k, v?⟩ := kv
    cases v? with
    | some v => simp [List.filterMap_cons, ih]
    | none => simp [List.filterMap_cons, ih]

theorem rowMeta_eq_filterMap (row : Row) :
    rowMeta row = row.filterMap (fun kv => kv.2.map (fun v => (kv.1, v))) := by
  unfold rowMeta
  simpa using rowMeta_foldl row []

theorem strConcat_row_filterMap (row : Row) :
    strConcat (row.map (fun kv =>
      match kv.2 with
      | some v => kv.1 ++ ": " ++ v ++ ", "
      | none => "")) =
      strConcat (((row.filterMap (fun kv => kv.2.map (fun v => (kv.1, v)))).map
        (fun kv => kv.1 ++ ": " ++ kv.2)).map (fun s => s ++ ", ")) := by
  induction row with
  | nil => rfl
  | cons kv row ih =>
    obtain ⟨k, v?⟩ := kv
    cases v? with
    | some v => simp [List.filterMap_cons, strConcat, ih]
    | none => simp [List.filterMap_cons, strConcat, ih, String.empty_append]

theorem rowText_eq_strConcat (row : Row) :
    rowText row = strConcat ((rowParts row).map (fun s => s ++ ", ")) := by
  have hstep : rowText row = "" ++ strConcat (row.map (fun kv =>
      match kv.2 with
      | some v => kv.1 ++ ": " ++ v ++ ", "
      | none => "")) := by
    refine foldl_step_append _ _ ?_ row ""
    intro acc kv
    obtain ⟨k, v?⟩ := kv
    cases v? with
    | some v => simp [String.append_assoc]
    | none => simp [String.append_empty]
  rw [hstep, String.empty_append, strConcat_row_filterMap]
  unfold rowParts
  rw [rowMeta_eq_filterMap]

theorem joinSep_foldl (ps : List String) (init : String) :
    ps.foldl (fun acc x => acc ++ ", " ++ x) init =
      init ++ strConcat (ps.map (fun x => ", " ++ x)) := by
  refine foldl_step_append _ _ ?_ ps init
  intro acc x
  rw [String.append_assoc]

theorem strConcat_parts_join (ps : List String) (p : String) :
    strConcat ((p :: ps).map (fun s => s ++ ", ")) = joinSep ", " (p :: ps) ++ ", " := by
  induction ps generalizing p with
  | nil => simp [strConcat, joinSep, String.append_empty]
  | cons q ps ih =>
    have hl : strConcat ((p :: q :: ps).map (fun s => s ++ ", ")) =
        (p ++ ", ") ++ strConcat ((q :: ps).map (fun s => s ++ ", ")) := rfl
    rw [hl, ih q]
    show (p ++ ", ") ++ (joinSep ", " (q :: ps) ++ ", ") =
      (q :: ps).foldl (fun acc x => acc ++ ", " ++ x) p ++ ", "
    rw [List.foldl_cons, joinSep_foldl]
    show (p ++ ", ") ++ ((ps.foldl (fun acc x => acc ++ ", " ++ x) q) ++ ", ") = _
    rw [joinSep_foldl]
    simp only [String.append_assoc]

theorem pyStrip_empty : pyStrip "" = "" := rfl

theorem pyStrip_append_sep (s : String)
    (h1 : s.data.dropWhile stripSet = s.data)
    (h2 : s.data.reverse.dropWhile stripSet = s.data.reverse) :
    pyStrip (s ++ ", ") = s := by
  unfold pyStrip
  have hdata : (s ++ ", ").data = s.data ++ [',', ' '] := String.data_append s ", "
  rw [hdata]
  cases hs : s.data with
  | nil =>
    exact (congrArg String.mk hs).symm
  | cons c t =>
    have hc : stripSet c = false := by
      cases hcv : stripSet c
      · rfl
      · exfalso
        rw [hs, List.dropWhile_cons, hcv] at h1
        simp only [if_true] at h1
        have hle : (t.dropWhile stripSet).length ≤ t.length :=
          (List.dropWhile_sublist stripSet).length_le
        rw [h1] at hle
        simp only [List.length_cons] at hle
        omega
    have hfront : ((c :: t) ++ [',', ' ']).dropWhile stripSet = (c :: t) ++ [',', ' '] := by
      rw [List.cons_append, List.dropWhile_cons, hc]
      simp
    rw [hfront]
    have hrev : ((c :: t) ++ [',', ' ']).reverse = ' ' :: ',' :: (c :: t).reverse := by
      simp
    rw [hrev]
    have hback : (' ' :: ',' :: (c :: t).reverse).dropWhile stripSet =
        ((c :: t).reverse).dropWhile stripSet := by
      rw [List.dropWhile_cons]
      norm_num [stripSet]
    rw [hback]
    rw [hs] at h2
    rw [h2]
    rw [List.reverse_reverse]
    cases s
    simp only at hs
    rw [hs]

/-- C5 (amended): the document text for record `i` is the `", "`-joined
concatenation of `"name: value"` over exactly the non-missing attributes,
in attribute order, provided the joined text neither starts nor ends with
a comma or space character (otherwise Python's `strip(", ")` removes more
than the trailing separator); and, for a row with pairwise distinct
attribute names, an attribute with a missing value appears in neither the
document metadata nor (hence) its rendering. -/
theorem c5_document_join_and_missing_skipped (data : List Row) (i : Nat)
    (hi : i < data.length)
    (hnd : ((data.getD i []).map Prod.fst).Nodup)
    (h1 : (joinSep ", " (rowParts (data.getD i []))).data.dropWhile stripSet =
      (joinSep ", " (rowParts (data.getD i []))).data)
    (h2 : (joinSep ", " (rowParts (data.getD i []))).data.reverse.dropWhile stripSet =
      (joinSep ", " (rowParts (data.getD i []))).data.reverse) :
    (prepare_documents data).1.getD i "" = joinSep ", " (rowParts (data.getD i [])) ∧
    (prepare_documents data).2.getD i [] = rowMeta (data.getD i []) ∧
    ∀ kv ∈ data.getD i [], kv.2 = none →
      kv.1 ∉ ((prepare_documents data).2.getD i []).map Prod.fst := by
  have hrow : data.getD i [] = data[i] := by
    rw [List.getD_eq_getElem?_getD, List.getElem?_eq_getElem hi]
    rfl
  have hmeta : (prepare_documents data).2.getD i [] = rowMeta (data.getD i []) := by
    show (data.map rowMeta).getD i [] = _
    rw [List.getD_eq_getElem?_getD, List.getElem?_map, List.getElem?_eq_getElem hi, hrow]
    rfl
  refine ⟨?_, hmeta, ?_⟩
  · have hdoc : (prepare_documents data).1.getD i "" =
        pyStrip (rowText (data.getD i [])) := by
      show (data.map (fun r => pyStrip (rowText r))).getD i "" = _
      rw [List.getD_eq_getElem?_getD, List.getElem?_map, List.getElem?_eq_getElem hi, hrow]
      rfl
    rw [hdoc]
    rcases hp : rowParts (data.getD i []) with _ | ⟨p, ps⟩
    · rw [rowText_eq_strConcat, hp]
      exact pyStrip_empty
    · rw [rowText_eq_strConcat, hp, strConcat_parts_join]
      rw [hp] at h1 h2
      exact pyStrip_append_sep _ h1 h2
  · intro kv hkv hnone
    rw [hmeta, rowMeta_eq_filterMap]
    intro hmem
    rcases List.mem_map.mp hmem with ⟨b, hb, hfst⟩
    rcases List.mem_filterMap.mp hb with ⟨a, ha, hfa⟩
    cases hav : a.2 with
    | none =>
      rw [hav] at hfa
      exact Option.noConfusion hfa
    | some v =>
      rw [hav] at hfa
      have hfa2 : (a.1, v) = b := by injection hfa
      have hab : a.1 = kv.1 := by
        rw [← hfa2] at hfst
        simpa using hfst
      have hkva : kv = a :=
        List.inj_on_of_nodup_map hnd hkv ha (by
          show kv.1 = a.1
          rw [hab])
      rw [hkva, hav] at hnone
      exact Option.noConfusion hnone

/-- Counterexample to C5 as stated: for the record with the single
attribute `c` bearing the (non-missing) value `"x,"`, the produced
document text is `"c: x"`, while the claimed join-with-no-trailing-
separator form is `"c: x,"` — Python's `strip(", ")` also eats characters
belonging to the value itself. -/
theorem c5_counterexample :
    (prepare_documents [[("c", some "x,")]]).1.getD 0 "" = "c: x" ∧
    joinSep ", " (rowParts [("c", some "x,")]) = "c: x," ∧
    (prepare_documents [[("c", some "x,")]]).1.getD 0 "" ≠
      joinSep ", " (rowParts [("c", some "x,")]) := by
  refine ⟨by decide, by decide, by decide⟩

/-- Witness for C5 (amended) at a concrete record with clean values. -/
theorem c5_witness :
    (0 : Nat) < ([[("country", some "PT"), ("adr", some "100")]] : List Row).length ∧
    ((([[("country", some "PT"), ("adr", some "100")]] : List Row).getD 0 []).map
      Prod.fst).Nodup ∧
    (prepare_documents [[("country", some "PT"), ("adr", some "100")]]).1.getD 0 "" =
      joinSep ", "
        (rowParts (([[("country", some "PT"), ("adr", some "100")]] : List Row).getD 0 [])) :=
  ⟨by decide, by decide,
   (c5_document_join_and_missing_skipped
     [[("country", some "PT"), ("adr", some "100")]] 0
     (by decide) (by decide) (by decide) (by decide)).1⟩

theorem getCollection_of_exists (db : ChromaDB) (name : String)
    (h : collectionExists db name = true) :
    ∃ col, getCollection db name = some col ∧ col.name = name := by
  unfold collectionExists at h
  unfold getCollection
  rcases List.any_eq_true.mp h with ⟨col, hmem, hp⟩
  have hsome : (db.collections.find? (fun col => col.name == name)).isSome :=
    List.find?_isSome.mpr ⟨col, hmem, hp⟩
  rcases Option.isSome_iff_exists.mp hsome with ⟨col2, hcol2⟩
  refine ⟨col2, hcol2, ?_⟩
  have := List.find?_some hcol2
  exact eq_of_beq this

theorem getCollection_append_new (db : ChromaDB) (col : ChromaCollection)
    (hnew : collectionExists db col.name = false) :
    getCollection ⟨db.collections ++ [col]⟩ col.name = some col := by
  unfold getCollection
  show (db.collections ++ [col]).find? (fun c => c.name == col.name) = some col
  rw [List.find?_append]
  have hnone : db.collections.find? (fun c => c.name == col.name) = none := by
    rw [List.find?_eq_none]
    intro x hx hpx
    unfold collectionExists at hnew
    have : db.collections.any (fun c => c.name == col.name) = true :=
      List.any_eq_true.mpr ⟨x, hx, hpx⟩
    rw [this] at hnew
    exact Bool.noConfusion hnew
  rw [hnone]
  simp [List.find?]

/-- C3: building against a name that does not yet exist creates the
collection (embedding every document and inserting in batches); building a
second time against the same name and storage attaches to the existing
collection with zero embedding calls and zero insertion calls, returning
the same client state — in particular the attached collection and its
document count are unchanged. -/
theorem c3_second_build_attaches_without_calls (db : ChromaDB)
    (data data2 : List Row) (name : String)
    (hnew : collectionExists db name = false) :
    ∃ col : ChromaCollection,
      create_chroma_collection db data name true =
        .ok ⟨⟨db.collections ++ [col]⟩, col, data.length, numBatches data.length⟩ ∧
      create_chroma_collection ⟨db.collections ++ [col]⟩ data2 name true =
        .ok ⟨⟨db.collections ++ [col]⟩, col, 0, 0⟩ ∧
      col.docs.length = data.length := by
  refine ⟨⟨name, (prepare_documents data).1, (prepare_documents data).2,
    documentIds (prepare_documents data).1.length⟩, ?_, ?_, ?_⟩
  · unfold create_chroma_collection
    rw [hnew]
    simp [prepare_documents]
  · have hex : collectionExists
        ⟨db.collections ++ [(⟨name, (prepare_documents data).1, (prepare_documents data).2,
          documentIds (prepare_documents data).1.length⟩ : ChromaCollection)]⟩ name = true := by
      unfold collectionExists
      simp
    have hget := getCollection_append_new db
      ⟨name, (prepare_documents data).1, (prepare_documents data).2,
        documentIds (prepare_documents data).1.length⟩ hnew
    unfold create_chroma_collection
    rw [hex, hget]
    simp
  · simp [prepare_documents]

/-- Witness for C3: a fresh store, one record, then a rebuild. -/
theorem c3_witness :
    collectionExists ⟨[]⟩ "hotel_bookings" = false ∧
    ∃ col : ChromaCollection,
      create_chroma_collection ⟨[]⟩ [[("country", some "PT")]] "hotel_bookings" true =
        .ok ⟨⟨[] ++ [col]⟩, col, 1, numBatches 1⟩ ∧
      create_chroma_collection ⟨[] ++ [col]⟩ [[("country", some "PT")]] "hotel_bookings" true =
        .ok ⟨⟨[] ++ [col]⟩, col, 0, 0⟩ ∧
      col.docs.length = 1 :=
  ⟨by decide,
   c3_second_build_attaches_without_calls ⟨[]⟩ [[("country", some "PT")]]
     [[("country", some "PT")]] "hotel_bookings" (by decide)⟩

theorem get_vector_store_preserves (st : ApiState) (env : Env) :
    (get_vector_store st env).1.query_history = st.query_history ∧
    (get_vector_store st env).1.llm_instance = st.llm_instance ∧
    (get_vector_store st env).1.analytics = st.analytics := by
  unfold get_vector_store
  split
  · simp
  · split
    · simp
    · dsimp only
      split <;> simp

theorem get_llm_interface_preserves_history (st : ApiState) (env : Env) :
    (get_llm_interface st env).1.query_history = st.query_history := by
  rcases hvs : get_vector_store st env with ⟨st1, res⟩
  have hist1 : st1.query_history = st.query_history := by
    have h := (get_vector_store_preserves st env).1
    rw [hvs] at h
    exact h
  unfold get_llm_interface
  cases hllm : st.llm_instance with
  | some llm => simp
  | none =>
    rw [hvs]
    cases res with
    | error e => simpa using hist1
    | ok vs =>
      by_cases hk : env.mistral_api_key = ""
      · simpa [hk] using hist1
      · simp only [hk, if_false]
        split <;> simpa using hist1

/-- C2 (amended): an `ask` call does not fail merely because no build has
happened — it lazily initializes the vector store and client first.  Its
history contract: when the call fails (for any reason, including failed
lazy initialization) the query history is exactly what it was before the
call, and when it succeeds exactly the one new (query, answer, timestamp)
entry is logged through `log_query`. -/
theorem c2_ask_failure_leaves_history (st : ApiState) (env : Env) (q : String) :
    (∀ e, (ask_question st env q).2 = .error e →
      (ask_question st env q).1.query_history = st.query_history) ∧
    (∀ a, (ask_question st env q).2 = .ok a →
      (ask_question st env q).1.query_history =
        log_query st.query_history q a env.timestamp) := by
  rcases hllm : get_llm_interface st env with ⟨st1, res⟩
  have hist1 : st1.query_history = st.query_history := by
    have h := get_llm_interface_preserves_history st env
    rw [hllm] at h
    exact h
  unfold ask_question
  rw [hllm]
  cases res with
  | error e0 =>
    dsimp only
    constructor
    · intro e _
      exact hist1
    · intro a ha
      simp at ha
  | ok llm =>
    dsimp only
    cases har : answer_with_rag llm st1.vector_store env.engine env.http q 3 with
    | ok r =>
      dsimp only
      constructor
      · intro e he
        simp at he
      · intro a ha
        have haa : r.answer = a := by simpa using ha
        rw [← haa, hist1]
    | valueError m =>
      dsimp only
      constructor
      · intro e _
        exact hist1
      · intro a ha
        simp at ha
    | keyError k =>
      dsimp only
      constructor
      · intro e _
        exact hist1
      · intro a ha
        simp at ha
    | indexError =>
      dsimp only
      constructor
      · intro e _
        exact hist1
      · intro a ha
        simp at ha
    | typeError =>
      dsimp only
      constructor
      · intro e _
        exact hist1
      · intro a ha
        simp at ha

/-- Counterexample to C2 as stated: from the fresh state in which no index
build or attach has ever happened (no vector store, no client), an `ask`
call with a reachable environment (CSV present, key set, generation API
responding) does not fail with a not-ready error — it lazily builds the
index and returns the generated answer. -/
theorem c2_counterexample_ask_succeeds_before_build :
    ((ApiState.mk false none none [] ⟨[]⟩).vector_store = none ∧
     (ApiState.mk false none none [] ⟨[]⟩).llm_instance = none) ∧
    (ask_question (ApiState.mk false none none [] ⟨[]⟩)
      (Env.mk (some [[("country", some "PT")]]) true "k" "mistral-medium"
        (.resp 200)
        (ChromaQueryResult.mk ["country: PT"] [[("country", "PT")]] [0])
        (.resp 200 (Json.obj [("choices", Json.arr [Json.obj [("message",
          Json.obj [("content", Json.str "PT has 1 booking.")])]])]))
        "2026-10-12T00:00:00")
      "How many bookings came from Portugal?").2 = .ok "PT has 1 booking." :=
  ⟨⟨rfl, rfl⟩, rfl⟩

/-- Witness for C2 (amended): a failing `ask` (missing `MISTRAL_API_KEY`)
leaves the history empty. -/
theorem c2_witness :
    (ask_question (ApiState.mk false none none [] ⟨[]⟩)
      (Env.mk (some []) true "" "mistral-medium" (.resp 200)
        (ChromaQueryResult.mk [] [] []) (.exn "down") "t") "q").2 =
      .error "Error answering question: LLM initialization failed: MISTRAL_API_KEY not found in environment variables" ∧
    (ask_question (ApiState.mk false none none [] ⟨[]⟩)
      (Env.mk (some []) true "" "mistral-medium" (.resp 200)
        (ChromaQueryResult.mk [] [] []) (.exn "down") "t") "q").1.query_history = [] :=
  ⟨rfl,
   (c2_ask_failure_leaves_history (ApiState.mk false none none [] ⟨[]⟩)
     (Env.mk (some []) true "" "mistral-medium" (.resp 200)
       (ChromaQueryResult.mk [] [] []) (.exn "down") "t") "q").1
     "Error answering question: LLM initialization failed: MISTRAL_API_KEY not found in environment variables"
     rfl⟩

theorem get_analytics_preserves (st : ApiState) (env : Env) :
    (get_analytics st env).1.vector_store = st.vector_store ∧
    (get_analytics st env).1.llm_instance = st.llm_instance ∧
    (get_analytics st env).1.chroma = st.chroma := by
  unfold get_analytics
  split
  · simp
  · split <;> simp

theorem get_analytics_constructs (st : ApiState) (env : Env) (rows : List Row)
    (ha : st.analytics = false) (hdf : env.dataFile = some rows) :
    (get_analytics st env).1.analytics = true := by
  unfold get_analytics
  rw [ha, hdf]
  simp

theorem get_vector_store_preserves_analytics (st : ApiState) (env : Env) :
    (get_vector_store st env).1.analytics = st.analytics :=
  (get_vector_store_preserves st env).2.2

theorem create_with_access_ok (db : ChromaDB) (data : List Row) (name : String) :
    ∃ r : BuildOutcome, create_chroma_collection db data name true = .ok r ∧
      collectionExists r.db name = true := by
  cases hex : collectionExists db name with
  | true =>
    rcases getCollection_of_exists db name hex with ⟨col, hget, _⟩
    refine ⟨⟨db, col, 0, 0⟩, ?_, hex⟩
    unfold create_chroma_collection
    rw [hex, hget]
    simp
  | false =>
    refine ⟨⟨⟨db.collections ++ [⟨name, (prepare_documents data).1,
      (prepare_documents data).2, documentIds (prepare_documents data).1.length⟩]⟩,
      ⟨name, (prepare_documents data).1, (prepare_documents data).2,
        documentIds (prepare_documents data).1.length⟩,
      (prepare_documents data).1.length,
      numBatches (prepare_documents data).1.length⟩, ?_, ?_⟩
    · unfold create_chroma_collection
      rw [hex]
      simp
    · unfold collectionExists
      simp

theorem get_vector_store_builds (st : ApiState) (env : Env) (rows : List Row)
    (hv : st.vector_store = none) (hao : env.chromaAccessOk = true)
    (hdf : env.dataFile = some rows) :
    (get_vector_store st env).1.vector_store ≠ none ∧
    collectionExists (get_vector_store st env).1.chroma "hotel_bookings" = true := by
  unfold get_vector_store
  rw [hv, hdf]
  dsimp only
  rw [hao]
  rcases create_with_access_ok st.chroma rows "hotel_bookings" with ⟨r, hr, hrex⟩
  rw [hr]
  dsimp only
  exact ⟨by simp, hrex⟩

theorem health_check_fst (st : ApiState) (env : Env) :
    (health_check st env).1 = (get_vector_store (get_analytics st env).1 env).1 := rfl

/-- C10: a health check never constructs the generation-client singleton —
the final state's `llm_instance` is whatever it was before, and when it was
uninitialized the report says `not_initialized` — but it does construct the
analytics and vector-store singletons as a side effect when they are
missing and constructible; in the vector-store case it builds or attaches
the `hotel_bookings` collection, so a health check can trigger a full
index build. -/
theorem c10_health_check_side_effects (st : ApiState) (env : Env) :
    ((health_check st env).1.llm_instance = st.llm_instance) ∧
    (st.llm_instance = none → (health_check st env).2.llm = "not_initialized") ∧
    (st.analytics = false → ∀ rows, env.dataFile = some rows →
      (health_check st env).1.analytics = true) ∧
    (st.vector_store = none → env.chromaAccessOk = true →
      ∀ rows, env.dataFile = some rows →
        (health_check st env).1.vector_store ≠ none ∧
        collectionExists (health_check st env).1.chroma "hotel_bookings" = true) := by
  have hllm : (health_check st env).1.llm_instance = st.llm_instance := by
    rw [health_check_fst, (get_vector_store_preserves _ _).2.1,
      (get_analytics_preserves st env).2.1]
  refine ⟨hllm, ?_, ?_, ?_⟩
  · intro h
    have hl2 : (get_vector_store (get_analytics st env).1 env).1.llm_instance = none := by
      rw [← health_check_fst]
      rw [hllm]
      exact h
    unfold health_check
    dsimp only
    rw [hl2]
  · intro ha rows hdf
    rw [health_check_fst, get_vector_store_preserves_analytics]
    exact get_analytics_constructs st env rows ha hdf
  · intro hv hao rows hdf
    have hv2 : (get_analytics st env).1.vector_store = none := by
      rw [(get_analytics_preserves st env).1]
      exact hv
    have := get_vector_store_builds (get_analytics st env).1 env rows hv2 hao hdf
    rw [health_check_fst]
    exact this

/-- Witness for C10: from the fresh state, a health check with the CSV
present leaves the client unconstructed and reports it, constructs the
analytics singleton, and builds the `hotel_bookings` collection that did
not exist before. -/
theorem c10_witness :
    ((health_check (ApiState.mk false none none [] ⟨[]⟩)
      (Env.mk (some [[("country", some "PT")]]) true "k" "mistral-medium"
        (.resp 200) (ChromaQueryResult.mk [] [] []) (.exn "down") "t")).1.llm_instance
      = none) ∧
    ((health_check (ApiState.mk false none none [] ⟨[]⟩)
      (Env.mk (some [[("country", some "PT")]]) true "k" "mistral-medium"
        (.resp 200) (ChromaQueryResult.mk [] [] []) (.exn "down") "t")).2.llm
      = "not_initialized") ∧
    ((health_check (ApiState.mk false none none [] ⟨[]⟩)
      (Env.mk (some [[("country", some "PT")]]) true "k" "mistral-medium"
        (.resp 200) (ChromaQueryResult.mk [] [] []) (.exn "down") "t")).1.analytics
      = true) ∧
    ((health_check (ApiState.mk false none none [] ⟨[]⟩)
      (Env.mk (some [[("country", some "PT")]]) true "k" "mistral-medium"
        (.resp 200) (ChromaQueryResult.mk [] [] []) (.exn "down") "t")).1.vector_store
      ≠ none) ∧
    collectionExists (ApiState.mk false none none [] ⟨[]⟩).chroma "hotel_bookings"
      = false ∧
    collectionExists ((health_check (ApiState.mk false none none [] ⟨[]⟩)
      (Env.mk (some [[("country", some "PT")]]) true "k" "mistral-medium"
        (.resp 200) (ChromaQueryResult.mk [] [] []) (.exn "down") "t")).1.chroma)
      "hotel_bookings" = true :=
  ⟨(c10_health_check_side_effects (ApiState.mk false none none [] ⟨[]⟩)
      (Env.mk (some [[("country", some "PT")]]) true "k" "mistral-medium"
        (.resp 200) (ChromaQueryResult.mk [] [] []) (.exn "down") "t")).1,
   (c10_health_check_side_effects _ _).2.1 rfl,
   (c10_health_check_side_effects _ _).2.2.1 rfl [[("country", some "PT")]] rfl,
   ((c10_health_check_side_effects _ _).2.2.2 rfl rfl [[("country", some "PT")]] rfl).1,
   by decide,
   ((c10_health_check_side_effects _ _).2.2.2 rfl rfl [[("country", some "PT")]] rfl).2⟩

/-- C9: a 200 generation-API response whose JSON body lacks the expected
nested fields makes `generate_response` fail with an unclassified
`KeyError` that escapes the handler, while a transport failure is caught
and classified as `ValueError` — the `except` clause covers only
`requests` exceptions. -/
theorem c9_malformed_success_escapes_unclassified :
    generate_response ⟨"mistral-medium", "k", true⟩ "prompt"
      (.resp 200 (Json.obj [])) = .keyError "choices" ∧
    ∀ m, generate_response ⟨"mistral-medium", "k", true⟩ "prompt" (.exn m) =
      .valueError ("API request failed: " ++ m) :=
  ⟨rfl, fun _ => rfl⟩

end BookingRag
